import Mathlib

/-
Verification of the Metamorphosis Agent repository (app_render.py and
design_agent.py) against its natural-language specification.

The program is a Streamlit app: a module-level session dictionary, two
remote services (a multimodal analysis service and an image-generation
service), a memoized analysis function, and three callbacks.  The
embedding below models:
  * Python/JSON values as the inductive type JVal (with jnull standing
    for Python None), together with Python truthiness;
  * the remote analysis boundary as GeminiCall (the call either raises
    or yields a response whose text is empty, invalid JSON, or valid
    JSON with a given parse), matching the opaque service boundary of
    the spec;
  * the Streamlit session dictionary as the structure SessionState
    (the six keys initialized in app_render.py section 2);
  * the st.cache_data memo table of run_gemini_analysis as an explicit
    association list.  Streamlit hashes every parameter of the cached
    function except those whose name starts with an underscore, so the
    cache key of run_gemini_analysis(_image_obj, client_api_key,
    unique_id) is the pair (client_api_key, unique_id): the image
    object is excluded from the key.
Each operation is a direct translation of the corresponding function in
the source, with the outcome of each external call passed in as an
explicit parameter.
-/

/-- Python/JSON values as produced by json.loads; jnull also stands for
the Python value None. -/
inductive JVal where
  | jnull
  | jbool (b : Bool)
  | jint (n : Int)
  | jstr (s : String)
  | jarr (xs : List JVal)
  | jobj (fields : List (String × JVal))

/-- Python truthiness of a JVal (None, False, 0, empty string, empty
list and empty dict are falsy). -/
def JVal.truthy : JVal → Bool
  | .jnull => false
  | .jbool b => b
  | .jint n => n != 0
  | .jstr s => s ≠ ""
  | .jarr xs => !xs.isEmpty
  | .jobj fs => !fs.isEmpty

/-- Association-list lookup on the fields of a JSON object (first
occurrence; Python dict keys are unique). -/
def jGet : List (String × JVal) → String → Option JVal
  | [], _ => none
  | p :: rest, key => if p.1 = key then some p.2 else jGet rest key

/-- Removal of a key from a JSON object, as performed by dict.pop. -/
def removeKey : List (String × JVal) → String → List (String × JVal)
  | [], _ => []
  | p :: rest, key => if p.1 = key then removeKey rest key else p :: removeKey rest key

/-- Field access on a JVal: the field's value when the value is an
object that has the field, none otherwise. -/
def jField (v : JVal) (key : String) : Option JVal :=
  match v with
  | .jobj fs => jGet fs key
  | _ => none

/-- Python d.pop(key, None): on a dict, returns the popped value (None
when the key is absent) together with the dict without the key; on any
non-dict value the attribute access raises, modelled as none. -/
def dictPop (v : JVal) (key : String) : Option (JVal × JVal) :=
  match v with
  | .jobj fs => some ((jGet fs key).getD .jnull, .jobj (removeKey fs key))
  | _ => none

/-- Opaque uploaded file object stored in st.session_state
(uploaded_file_obj); the content field distinguishes items. -/
structure FileObj where
  content : Nat

/-- Opaque decoded image (PIL.Image), the result of Image.open. -/
structure PILImage where
  content : Nat

/-- Opaque generated image held in memory. -/
structure GenImage where
  content : Nat

/-- Finish reason signalled by the analysis service alongside an empty
response (types.FinishReason); safety is the safety-filter value. -/
inductive FinishReason where
  | safety
  | stop
  | other

/-- The text of a remote analysis response, abstracted at the JSON
boundary: empty text, non-empty text that is not valid JSON, or valid
JSON text given by its parse. -/
inductive TextContent where
  | empty
  | invalid (raw : String)
  | valid (v : JVal)

/-- Outcome of one generate_content call against the analysis service:
the call raises, or returns a response carrying text and an optional
finish reason (none models both a missing candidate list and a missing
finish reason, which Python treats alike as falsy). -/
inductive GeminiCall where
  | raises
  | response (text : TextContent) (finishReason : Option FinishReason)

/-- Behavior of json.loads on response text at the abstracted boundary:
empty or invalid text raises JSONDecodeError (none); valid text yields
its parse. -/
def json_loads : TextContent → Option JVal
  | .empty => none
  | .invalid _ => none
  | .valid v => some v

/-- Body of run_gemini_analysis in app_render.py (lines 160-189),
with the globals gemini_client (as a Bool: client initialized) and the
remote call outcome passed explicitly.  Returns the (blueprint,
vis_prompt) pair; (jnull, jnull) is Python's (None, None).  The guard
returns (None, None) before any remote call; any exception inside the
try block (remote error, JSON decode error, attribute error on pop) is
caught and yields (None, None). -/
def run_gemini_analysis (geminiClientOk : Bool) (imageObj : Option PILImage)
    (call : GeminiCall) : JVal × JVal :=
  if !geminiClientOk || imageObj.isNone then (.jnull, .jnull)
  else
    match call with
    | .raises => (.jnull, .jnull)
    | .response text _ =>
      match json_loads text with
      | none => (.jnull, .jnull)
      | some bp =>
        match dictPop bp "visualization_prompt" with
        | none => (.jnull, .jnull)
        | some (vis, bp2) => (bp2, vis)

/-- Key of the st.cache_data memo table of run_gemini_analysis:
Streamlit excludes the underscore-prefixed _image_obj parameter from
hashing, so the key is (client_api_key, unique_id). -/
abbrev CacheKey := String × Option Int

/-- The st.cache_data memo table for run_gemini_analysis, mapping cache
keys to previously returned (blueprint, vis_prompt) pairs. -/
abbrev AnalysisCache := List (CacheKey × (JVal × JVal))

/-- Lookup in the memo table. -/
def cacheLookup : AnalysisCache → CacheKey → Option (JVal × JVal)
  | [], _ => none
  | e :: rest, key => if e.1 = key then some e.2 else cacheLookup rest key

/-- Result of invoking the cached analysis function: the returned value,
the memo table afterwards, and whether the remote generate_content call
was issued during the invocation. -/
structure CachedCallResult where
  result : JVal × JVal
  cache : AnalysisCache
  remoteCalled : Bool

/-- Invocation of run_gemini_analysis through its st.cache_data
decorator: on a key hit the cached value is returned and the body is
not executed; on a miss the body runs (issuing the remote call exactly
when the guard passes) and its return value is stored under the key. -/
def run_gemini_analysis_cached (cache : AnalysisCache) (geminiClientOk : Bool)
    (imageObj : Option PILImage) (call : GeminiCall)
    (client_api_key : String) (unique_id : Option Int) : CachedCallResult :=
  match cacheLookup cache (client_api_key, unique_id) with
  | some r => ⟨r, cache, false⟩
  | none =>
    let r := run_gemini_analysis geminiClientOk imageObj call
    ⟨r, ((client_api_key, unique_id), r) :: cache, geminiClientOk && imageObj.isSome⟩

/-- The six keys of st.session_state initialized in app_render.py
section 2; jnull models Python None for the JSON-valued slots. -/
structure SessionState where
  uploaded_file_obj : Option FileObj
  unique_id : Option Int
  blueprint_data : JVal
  vis_prompt : JVal
  generated_image_obj : Option GenImage
  last_generation_status : Option String

/-- The session as initialized (every key None). -/
def emptySession : SessionState :=
  ⟨none, none, .jnull, .jnull, none, none⟩

/-- The module-level upload handler of app_render.py (lines 283-293):
stores the file object, sets unique_id to int(time.time()) (the now
argument), and assigns None to blueprint_data, vis_prompt and
generated_image_obj.  It does not touch last_generation_status. -/
def upload_handler (s : SessionState) (file : FileObj) (now : Int) : SessionState :=
  { s with
    uploaded_file_obj := some file
    unique_id := some now
    blueprint_data := .jnull
    vis_prompt := .jnull
    generated_image_obj := none }

/-- Result of analyze_image_callback: the session afterwards, the memo
table afterwards, and whether a remote analysis call was issued. -/
structure CallbackResult where
  session : SessionState
  cache : AnalysisCache
  remoteCalled : Bool

/-- analyze_image_callback of app_render.py (lines 222-243).  The
outcome of Image.open on the uploaded file is the imgOpen parameter
(none when it raises).  The callback stores the analysis result only
when the returned blueprint is truthy; otherwise the session is left
as it was. -/
def analyze_image_callback (s : SessionState) (cache : AnalysisCache)
    (geminiClientOk : Bool) (client_api_key : String)
    (imgOpen : Option PILImage) (call : GeminiCall) : CallbackResult :=
  match s.uploaded_file_obj with
  | none => ⟨s, cache, false⟩
  | some _ =>
    match imgOpen with
    | none => ⟨s, cache, false⟩
    | some image_pil =>
      let r := run_gemini_analysis_cached cache geminiClientOk (some image_pil)
        call client_api_key s.unique_id
      if r.result.1.truthy then
        ⟨{ s with
            blueprint_data := r.result.1
            vis_prompt := r.result.2
            generated_image_obj := none
            last_generation_status := none },
          r.cache, r.remoteCalled⟩
      else ⟨s, r.cache, r.remoteCalled⟩

/-- Output of one text_to_image call against the render service: a
ready image object (has a save attribute) or a raw byte buffer, which
Image.open then decodes (none when decoding raises). -/
inductive HFOutput where
  | imageObj (img : GenImage)
  | rawBytes (decoded : Option GenImage)

/-- Outcome of one text_to_image call: the call raises, or returns an
output. -/
inductive HFCall where
  | raises
  | returns (out : HFOutput)

/-- generate_image_with_hf of app_render.py (lines 194-217), with the
global hf_client (as a Bool) and the remote call outcome passed
explicitly.  Returns None when the client is missing, the call raises,
or decoding the returned bytes raises; all exceptions are caught. -/
def generate_image_with_hf (hfClientOk : Bool) (call : HFCall) : Option GenImage :=
  if !hfClientOk then none
  else
    match call with
    | .raises => none
    | .returns (.imageObj img) => some img
    | .returns (.rawBytes d) => d

/-- Result of generate_image_callback: the session afterwards and
whether a remote render call was issued. -/
structure RenderResult where
  session : SessionState
  remoteCalled : Bool

/-- generate_image_callback of app_render.py (lines 245-256): a falsy
vis_prompt sets last_generation_status to no_prompt and returns before
any remote call; otherwise the render runs and the status is set to
success (storing the image) or failed. -/
def generate_image_callback (s : SessionState) (hfClientOk : Bool)
    (call : HFCall) : RenderResult :=
  if !s.vis_prompt.truthy then
    ⟨{ s with last_generation_status := some "no_prompt" }, false⟩
  else
    match generate_image_with_hf hfClientOk call with
    | some img =>
      ⟨{ s with generated_image_obj := some img, last_generation_status := some "success" }, hfClientOk⟩
    | none =>
      ⟨{ s with last_generation_status := some "failed" }, hfClientOk⟩

/-- reset_app of app_render.py (lines 258-265): assigns None to the six
session keys.  The st.cache_data store is module state that reset_app
does not touch, so the memo table is returned unchanged. -/
def reset_app (s : SessionState) (cache : AnalysisCache) : SessionState × AnalysisCache :=
  (emptySession, cache)

/-- Check that a field of a JSON object is present and is a string. -/
def fieldIsStr (fs : List (String × JVal)) (key : String) : Bool :=
  match jGet fs key with
  | some (.jstr _) => true
  | _ => false

/-- Check that a field is present, is a string, and lies in an enum
domain. -/
def fieldIsEnum (fs : List (String × JVal)) (key : String) (dom : List String) : Bool :=
  match jGet fs key with
  | some (.jstr t) => dom.contains t
  | _ => false

/-- Check that a field is present, is an integer, and lies in [1,10]
(the minimum/maximum bounds of upcycle_score in the schema). -/
def fieldIsScore (fs : List (String × JVal)) (key : String) : Bool :=
  match jGet fs key with
  | some (.jint n) => decide (1 ≤ n) && decide (n ≤ 10)
  | _ => false

/-- Item schema of material_breakdown: an object with required string
fields material_name and estimated_quantity. -/
def materialItemOk : JVal → Bool
  | .jobj fs => fieldIsStr fs "material_name" && fieldIsStr fs "estimated_quantity"
  | _ => false

/-- Check that a field is present and is an array of conforming
material items. -/
def fieldIsMaterialArray (fs : List (String × JVal)) (key : String) : Bool :=
  match jGet fs key with
  | some (.jarr xs) => xs.all materialItemOk
  | _ => false

/-- Enum domain of design_type in DESIGN_SCHEMA. -/
def designTypeEnum : List String :=
  ["Art Piece", "Small Furniture", "Accessory", "Tool"]

/-- Conformance to DESIGN_SCHEMA of app_render.py (lines 133-154): an
object whose six required fields are present with the declared types,
design_type in its enum domain and upcycle_score in [1,10]. -/
def conformsToDESIGN_SCHEMA : JVal → Bool
  | .jobj fs =>
      fieldIsStr fs "design_title"
      && fieldIsEnum fs "design_type" designTypeEnum
      && fieldIsMaterialArray fs "material_breakdown"
      && fieldIsStr fs "assembly_steps_summary"
      && fieldIsScore fs "upcycle_score"
      && fieldIsStr fs "visualization_prompt"
  | _ => false

/-- Modelled from the spec: the section 3 validity contract on a stored
DesignBlueprint, in the spec's words — every required field present
(title, category in its enum, materials, assembly summary, score) and
upcycle_score in [1,10].  The visualization prompt is not part of the
persisted blueprint. -/
def specBlueprintInvariant : JVal → Bool
  | .jobj fs =>
      fieldIsStr fs "design_title"
      && fieldIsEnum fs "design_type" designTypeEnum
      && fieldIsMaterialArray fs "material_breakdown"
      && fieldIsStr fs "assembly_steps_summary"
      && fieldIsScore fs "upcycle_score"
  | _ => false

/-- Outcome classification of analyze_waste_and_design in
design_agent.py, one constructor per user-visible branch of the
function: image load failure; the three empty-response branches (the
safety-specific message, the generic message that names a non-safety
finish reason, and the message for an empty response with no reason);
JSON decode success (which then reads three required keys, raising an
uncaught KeyError when one is absent — unhandledError); JSON decode
failure with the raw text preserved; and an exception the function
does not catch (the generate_content call is outside any try block). -/
inductive AgentOutcome where
  | loadError
  | emptySafety
  | emptyWithReason (r : FinishReason)
  | emptyNoReason
  | success (bp : JVal)
  | decodeFailure (raw : String)
  | unhandledError

/-- Whether an outcome is one of the three empty-response
classifications of design_agent.py. -/
def isEmptyOutcome : AgentOutcome → Bool
  | .emptySafety => true
  | .emptyWithReason _ => true
  | .emptyNoReason => true
  | _ => false

/-- analyze_waste_and_design of design_agent.py (lines 56-138), with
the image-load outcome and the remote call outcome passed explicitly.
Empty response text is classified before JSON decoding: finish reason
SAFETY yields the safety-specific branch, any other present finish
reason the generic-reason branch, and no candidates or no reason the
no-reason branch.  Non-empty text is decoded; on success the code then
indexes design_title, upcycle_score and design_type (uncaught KeyError
when absent or when the parse is not a dict); on JSONDecodeError the
raw text is reported. -/
def analyze_waste_and_design (imgOpen : Option PILImage)
    (call : GeminiCall) : AgentOutcome :=
  match imgOpen with
  | none => .loadError
  | some _ =>
    match call with
    | .raises => .unhandledError
    | .response text fr =>
      match text with
      | .empty =>
        match fr with
        | some .safety => .emptySafety
        | some r => .emptyWithReason r
        | none => .emptyNoReason
      | .invalid raw => .decodeFailure raw
      | .valid v =>
        match v with
        | .jobj fs =>
          match jGet fs "design_title", jGet fs "upcycle_score", jGet fs "design_type" with
          | some _, some _, some _ => .success (.jobj fs)
          | _, _, _ => .unhandledError
        | _ => .unhandledError

/-- Removing one key does not change lookups of any other key. -/
theorem jGet_removeKey (fs : List (String × JVal)) (key k : String)
    (h : k ≠ key) : jGet (removeKey fs key) k = jGet fs k := by
  induction fs with
  | nil => rfl
  | cons p rest ih =>
    by_cases hp : p.1 = key
    · have hkk : ¬ key = k := fun hh => h hh.symm
      simpa [removeKey, jGet, hp, hkk] using ih
    · by_cases hk : p.1 = k
      · simp [removeKey, jGet, hp, hk, h]
      · simpa [removeKey, jGet, hp, hk] using ih

/-- String-typed field checks survive removal of a different key. -/
theorem fieldIsStr_removeKey (fs : List (String × JVal)) (key k : String)
    (h : k ≠ key) : fieldIsStr (removeKey fs key) k = fieldIsStr fs k := by
  unfold fieldIsStr
  rw [jGet_removeKey fs key k h]

/-- Enum-typed field checks survive removal of a different key. -/
theorem fieldIsEnum_removeKey (fs : List (String × JVal)) (key k : String)
    (dom : List String) (h : k ≠ key) :
    fieldIsEnum (removeKey fs key) k dom = fieldIsEnum fs k dom := by
  unfold fieldIsEnum
  rw [jGet_removeKey fs key k h]

/-- Score field checks survive removal of a different key. -/
theorem fieldIsScore_removeKey (fs : List (String × JVal)) (key k : String)
    (h : k ≠ key) : fieldIsScore (removeKey fs key) k = fieldIsScore fs k := by
  unfold fieldIsScore
  rw [jGet_removeKey fs key k h]

/-- Material-array field checks survive removal of a different key. -/
theorem fieldIsMaterialArray_removeKey (fs : List (String × JVal)) (key k : String)
    (h : k ≠ key) : fieldIsMaterialArray (removeKey fs key) k = fieldIsMaterialArray fs k := by
  unfold fieldIsMaterialArray
  rw [jGet_removeKey fs key k h]

/-- An object with a successful lookup is a nonempty dict, hence
truthy. -/
theorem truthy_of_jGet_some (fs : List (String × JVal)) (k : String)
    (v : JVal) (h : jGet fs k = some v) : (JVal.jobj fs).truthy = true := by
  cases fs with
  | nil => simp [jGet] at h
  | cons p rest => simp [JVal.truthy]

/-- A string-typed field check implies the field is present. -/
theorem fieldIsStr_exists (fs : List (String × JVal)) (k : String)
    (h : fieldIsStr fs k = true) : ∃ t, jGet fs k = some (.jstr t) := by
  unfold fieldIsStr at h
  split at h
  · next t heq => exact ⟨t, heq⟩
  · exact absurd h (by simp)

/-- A key whose identifier component appears in no cache entry misses
the memo table. -/
theorem cacheLookup_none_of_fresh (cache : AnalysisCache) (k : String)
    (uid : Option Int) (h : ∀ e ∈ cache, e.1.2 ≠ uid) :
    cacheLookup cache (k, uid) = none := by
  induction cache with
  | nil => rfl
  | cons e rest ih =>
    have he : e.1.2 ≠ uid := h e (by simp)
    have hne : e.1 ≠ (k, uid) := by
      intro hh
      exact he (by rw [hh])
    simp only [cacheLookup, if_neg hne]
    exact ih (fun x hx => h x (List.mem_cons_of_mem e hx))

/-- C1 (amended): a second invocation of the cached analysis with the
same client_api_key and the same unique_id returns the previously
computed result without issuing a remote call and without changing the
memo table — for any image object and any remote behavior on the
second invocation, because the cache key is (client_api_key,
unique_id) only: the item content is not part of the key. -/
theorem C1_memoized_amended (cache : AnalysisCache) (g : Bool)
    (img : Option PILImage) (call : GeminiCall) (k : String) (uid : Option Int)
    (g2 : Bool) (img2 : Option PILImage) (call2 : GeminiCall) :
    (run_gemini_analysis_cached (run_gemini_analysis_cached cache g img call k uid).cache
        g2 img2 call2 k uid).result
      = (run_gemini_analysis_cached cache g img call k uid).result
    ∧ (run_gemini_analysis_cached (run_gemini_analysis_cached cache g img call k uid).cache
        g2 img2 call2 k uid).remoteCalled = false
    ∧ (run_gemini_analysis_cached (run_gemini_analysis_cached cache g img call k uid).cache
        g2 img2 call2 k uid).cache
      = (run_gemini_analysis_cached cache g img call k uid).cache := by
  cases h : cacheLookup cache (k, uid) with
  | some r => simp [run_gemini_analysis_cached, h]
  | none => simp [run_gemini_analysis_cached, h, cacheLookup]

/-- C1 (counterexample): two uploaded items with different content but
the same identifier and the same credential share a cache entry — the
second analysis returns the first item's blueprint (title A) without a
remote call, although running the analysis body on the second item's
remote response would return a different blueprint (title B). -/
theorem C1_content_excluded_from_key :
    (run_gemini_analysis_cached
        (run_gemini_analysis_cached [] true (some ⟨1⟩)
          (.response (.valid (.jobj [("design_title", .jstr "A")])) none)
          "key" (some 100)).cache
        true (some ⟨2⟩)
        (.response (.valid (.jobj [("design_title", .jstr "B")])) none)
        "key" (some 100)).result
      = (.jobj [("design_title", .jstr "A")], .jnull)
    ∧ (run_gemini_analysis_cached
        (run_gemini_analysis_cached [] true (some ⟨1⟩)
          (.response (.valid (.jobj [("design_title", .jstr "A")])) none)
          "key" (some 100)).cache
        true (some ⟨2⟩)
        (.response (.valid (.jobj [("design_title", .jstr "B")])) none)
        "key" (some 100)).remoteCalled = false
    ∧ run_gemini_analysis true (some ⟨2⟩)
        (.response (.valid (.jobj [("design_title", .jstr "B")])) none)
      = (.jobj [("design_title", .jstr "B")], .jnull)
    ∧ ("A" : String) ≠ "B" :=
  ⟨rfl, rfl, rfl, by decide⟩

/-- C2 (amended): when the upload timestamp differs from the
identifier component of every existing cache entry, the upload assigns
that timestamp as the new identifier, every analysis lookup under the
new identifier misses the memo table, and the analysis computes a
fresh result instead of returning a previous item's entry. -/
theorem C2_fresh_id_amended (s : SessionState) (cache : AnalysisCache) (file : FileObj)
    (now : Int) (g : Bool) (img : Option PILImage) (call : GeminiCall) (k : String)
    (hfresh : ∀ e ∈ cache, e.1.2 ≠ some now) :
    (upload_handler s file now).unique_id = some now
    ∧ cacheLookup cache (k, (upload_handler s file now).unique_id) = none
    ∧ (run_gemini_analysis_cached cache g img call k (upload_handler s file now).unique_id).result
      = run_gemini_analysis g img call := by
  have h2 : cacheLookup cache (k, some now) = none :=
    cacheLookup_none_of_fresh cache k (some now) hfresh
  refine ⟨rfl, h2, ?_⟩
  show (run_gemini_analysis_cached cache g img call k (some now)).result = _
  simp [run_gemini_analysis_cached, h2]

/-- C2 (witness): the amended statement at a concrete input — one
cache entry with identifier 5 and an upload at second 6. -/
theorem C2_fresh_id_amended_witness :
    (∀ e ∈ ([(("key", some 5), (JVal.jnull, JVal.jnull))] : AnalysisCache), e.1.2 ≠ some 6)
    ∧ ((upload_handler emptySession ⟨1⟩ 6).unique_id = some 6
      ∧ cacheLookup [(("key", some 5), (JVal.jnull, JVal.jnull))]
          ("key", (upload_handler emptySession ⟨1⟩ 6).unique_id) = none
      ∧ (run_gemini_analysis_cached [(("key", some 5), (JVal.jnull, JVal.jnull))]
          true (some ⟨1⟩) .raises "key" (upload_handler emptySession ⟨1⟩ 6).unique_id).result
        = run_gemini_analysis true (some ⟨1⟩) .raises) :=
  ⟨by decide,
   C2_fresh_id_amended emptySession [(("key", some 5), (JVal.jnull, JVal.jnull))]
     ⟨1⟩ 6 true (some ⟨1⟩) .raises "key" (by decide)⟩

/-- C2 (counterexample): two uploads in the same second receive the
same identifier int(time.time()) — the second upload's unique_id
equals the first's — and an analysis after the second upload returns
the first item's cached blueprint (title A) without a remote call,
although the analysis body on the second item's remote response would
return a different blueprint (title B). -/
theorem C2_same_second_stale :
    (analyze_image_callback (upload_handler emptySession ⟨1⟩ 100) [] true "key" (some ⟨1⟩)
        (.response (.valid (.jobj [("design_title", .jstr "A")])) none)).cache
      = [(("key", some 100), (.jobj [("design_title", .jstr "A")], .jnull))]
    ∧ (upload_handler emptySession ⟨2⟩ 100).unique_id
      = (upload_handler emptySession ⟨1⟩ 100).unique_id
    ∧ (analyze_image_callback (upload_handler emptySession ⟨2⟩ 100)
        [(("key", some 100), (.jobj [("design_title", .jstr "A")], .jnull))]
        true "key" (some ⟨2⟩)
        (.response (.valid (.jobj [("design_title", .jstr "B")])) none)).session.blueprint_data
      = .jobj [("design_title", .jstr "A")]
    ∧ (analyze_image_callback (upload_handler emptySession ⟨2⟩ 100)
        [(("key", some 100), (.jobj [("design_title", .jstr "A")], .jnull))]
        true "key" (some ⟨2⟩)
        (.response (.valid (.jobj [("design_title", .jstr "B")])) none)).remoteCalled = false
    ∧ run_gemini_analysis true (some ⟨2⟩)
        (.response (.valid (.jobj [("design_title", .jstr "B")])) none)
      = (.jobj [("design_title", .jstr "B")], .jnull)
    ∧ ("A" : String) ≠ "B" :=
  ⟨rfl, rfl, rfl, rfl, rfl, by decide⟩

/-- C3 (amended): reset_app returns the session to the initialized
Empty state — the uploaded item, identifier, blueprint, visualization
prompt, concept image and status all cleared — but it leaves the
st.cache_data memo table unchanged: cached analysis entries for the
discarded item are not removed. -/
theorem C3_reset_clears_session (s : SessionState) (cache : AnalysisCache) :
    (reset_app s cache).1.uploaded_file_obj = none
    ∧ (reset_app s cache).1.unique_id = none
    ∧ (reset_app s cache).1.blueprint_data = .jnull
    ∧ (reset_app s cache).1.vis_prompt = .jnull
    ∧ (reset_app s cache).1.generated_image_obj = none
    ∧ (reset_app s cache).1.last_generation_status = none
    ∧ (reset_app s cache).2 = cache :=
  ⟨rfl, rfl, rfl, rfl, rfl, rfl, rfl⟩

/-- C3 (counterexample): after reset_app from a session whose item has
identifier 5, the memo table still holds the analysis entry keyed to
that identifier — the claim that no cache entries remain for the
discarded item is false. -/
theorem C3_cache_survives_reset :
    cacheLookup
      (reset_app
        ⟨some ⟨1⟩, some 5, .jobj [("design_title", .jstr "A")], .jstr "a lamp", none, some "success"⟩
        [(("key", some 5), (.jobj [("design_title", .jstr "A")], .jstr "a lamp"))]).2
      ("key", some 5)
      = some (.jobj [("design_title", .jstr "A")], .jstr "a lamp") := rfl

/-- C4 (amended): from every session state, the upload handler clears
the blueprint, the visualization prompt and the rendered image before
any new analysis can run, but it leaves last_generation_status exactly
as it was. -/
theorem C4_upload_clears_downstream (s : SessionState) (file : FileObj) (now : Int) :
    (upload_handler s file now).blueprint_data = .jnull
    ∧ (upload_handler s file now).vis_prompt = .jnull
    ∧ (upload_handler s file now).generated_image_obj = none
    ∧ (upload_handler s file now).last_generation_status = s.last_generation_status :=
  ⟨rfl, rfl, rfl, rfl⟩

/-- C4 (counterexample): uploading from a session whose
last_generation_status is failed leaves the status failed — the upload
transition does not clear the fourth downstream field. -/
theorem C4_status_not_cleared :
    (upload_handler ⟨none, none, .jnull, .jnull, none, some "failed"⟩ ⟨2⟩ 7).last_generation_status
      = some "failed"
    ∧ (upload_handler ⟨none, none, .jnull, .jnull, none, some "failed"⟩ ⟨2⟩ 7).last_generation_status
      ≠ none :=
  ⟨rfl, by decide⟩

/-- C5: with a missing (None) or empty-string visualization prompt,
the render callback sets last_generation_status to no_prompt, issues
no remote call, and leaves every other session field unchanged. -/
theorem C5_render_no_prompt (s : SessionState) (hfClientOk : Bool) (call : HFCall) :
    generate_image_callback { s with vis_prompt := .jnull } hfClientOk call
      = ⟨{ s with vis_prompt := .jnull, last_generation_status := some "no_prompt" }, false⟩
    ∧ generate_image_callback { s with vis_prompt := .jstr "" } hfClientOk call
      = ⟨{ s with vis_prompt := .jstr "", last_generation_status := some "no_prompt" }, false⟩ :=
  ⟨rfl, rfl⟩

/-- C6: failure atomicity — the analysis callback never modifies the
uploaded item or its identifier (in particular not on any failure),
and the render callback never modifies the stored blueprint or the
visualization prompt; both callbacks are total functions of the
session, so no failure crashes or resets it. -/
theorem C6_failure_atomicity (s : SessionState) (cache : AnalysisCache)
    (geminiClientOk : Bool) (client_api_key : String) (imgOpen : Option PILImage)
    (call : GeminiCall) (hfClientOk : Bool) (hcall : HFCall) :
    (analyze_image_callback s cache geminiClientOk client_api_key imgOpen call).session.uploaded_file_obj
      = s.uploaded_file_obj
    ∧ (analyze_image_callback s cache geminiClientOk client_api_key imgOpen call).session.unique_id
      = s.unique_id
    ∧ (generate_image_callback s hfClientOk hcall).session.blueprint_data = s.blueprint_data
    ∧ (generate_image_callback s hfClientOk hcall).session.vis_prompt = s.vis_prompt := by
  refine ⟨?_, ?_, ?_, ?_⟩
  · unfold analyze_image_callback
    split
    · rfl
    · split
      · rfl
      · dsimp only
        split <;> rfl
  · unfold analyze_image_callback
    split
    · rfl
    · split
      · rfl
      · dsimp only
        split <;> rfl
  · unfold generate_image_callback
    split
    · rfl
    · split <;> rfl
  · unfold generate_image_callback
    split
    · rfl
    · split <;> rfl

/-- C7 (amended): when the remote response is valid JSON that conforms
to DESIGN_SCHEMA, the analysis callback stores exactly the parsed
object with the visualization prompt removed, and that stored
blueprint satisfies the section 3 validity contract (all required
fields present, upcycle_score in [1,10]).  The code itself performs no
validation; conformance is a hypothesis on the remote response. -/
theorem C7_conforming_response_valid (s : SessionState) (cache : AnalysisCache)
    (k : String) (img : PILImage) (f : FileObj)
    (fs : List (String × JVal)) (fr : Option FinishReason)
    (hup : s.uploaded_file_obj = some f)
    (hmiss : cacheLookup cache (k, s.unique_id) = none)
    (hc : conformsToDESIGN_SCHEMA (.jobj fs) = true) :
    (analyze_image_callback s cache true k (some img)
        (.response (.valid (.jobj fs)) fr)).session.blueprint_data
      = .jobj (removeKey fs "visualization_prompt")
    ∧ specBlueprintInvariant (.jobj (removeKey fs "visualization_prompt")) = true := by
  simp only [conformsToDESIGN_SCHEMA, Bool.and_eq_true] at hc
  obtain ⟨⟨⟨⟨⟨h1, h2⟩, h3⟩, h4⟩, h5⟩, h6⟩ := hc
  have hinv : specBlueprintInvariant (.jobj (removeKey fs "visualization_prompt")) = true := by
    simp only [specBlueprintInvariant, Bool.and_eq_true]
    refine ⟨⟨⟨⟨?_, ?_⟩, ?_⟩, ?_⟩, ?_⟩
    · rw [fieldIsStr_removeKey _ _ _ (by decide)]; exact h1
    · rw [fieldIsEnum_removeKey _ _ _ _ (by decide)]; exact h2
    · rw [fieldIsMaterialArray_removeKey _ _ _ (by decide)]; exact h3
    · rw [fieldIsStr_removeKey _ _ _ (by decide)]; exact h4
    · rw [fieldIsScore_removeKey _ _ _ (by decide)]; exact h5
  refine ⟨?_, hinv⟩
  obtain ⟨t, ht⟩ := fieldIsStr_exists (removeKey fs "visualization_prompt") "design_title"
    (by rw [fieldIsStr_removeKey _ _ _ (by decide)]; exact h1)
  have htr : (JVal.jobj (removeKey fs "visualization_prompt")).truthy = true :=
    truthy_of_jGet_some _ _ _ ht
  have hrun : run_gemini_analysis true (some img) (.response (.valid (.jobj fs)) fr)
      = (.jobj (removeKey fs "visualization_prompt"), (jGet fs "visualization_prompt").getD .jnull) :=
    rfl
  simp only [analyze_image_callback, hup]
  simp only [run_gemini_analysis_cached, hmiss, hrun]
  simp [htr]

/-- C7 (witness): the amended statement at a concrete conforming
remote response. -/
theorem C7_conforming_response_valid_witness :
    ((⟨some ⟨1⟩, some 100, .jnull, .jnull, none, none⟩ : SessionState).uploaded_file_obj = some ⟨1⟩)
    ∧ cacheLookup [] ("key", (⟨some ⟨1⟩, some 100, .jnull, .jnull, none, none⟩ : SessionState).unique_id) = none
    ∧ conformsToDESIGN_SCHEMA (.jobj
        [("design_title", .jstr "Bottle Lamp"),
         ("design_type", .jstr "Art Piece"),
         ("material_breakdown", .jarr [.jobj
           [("material_name", .jstr "Plastic Bottle"), ("estimated_quantity", .jstr "2 units")]]),
         ("assembly_steps_summary", .jstr "Cut and glue"),
         ("upcycle_score", .jint 7),
         ("visualization_prompt", .jstr "a lamp made of bottles")]) = true
    ∧ ((analyze_image_callback ⟨some ⟨1⟩, some 100, .jnull, .jnull, none, none⟩ [] true "key"
        (some ⟨1⟩)
        (.response (.valid (.jobj
          [("design_title", .jstr "Bottle Lamp"),
           ("design_type", .jstr "Art Piece"),
           ("material_breakdown", .jarr [.jobj
             [("material_name", .jstr "Plastic Bottle"), ("estimated_quantity", .jstr "2 units")]]),
           ("assembly_steps_summary", .jstr "Cut and glue"),
           ("upcycle_score", .jint 7),
           ("visualization_prompt", .jstr "a lamp made of bottles")])) none)).session.blueprint_data
      = .jobj (removeKey
          [("design_title", .jstr "Bottle Lamp"),
           ("design_type", .jstr "Art Piece"),
           ("material_breakdown", .jarr [.jobj
             [("material_name", .jstr "Plastic Bottle"), ("estimated_quantity", .jstr "2 units")]]),
           ("assembly_steps_summary", .jstr "Cut and glue"),
           ("upcycle_score", .jint 7),
           ("visualization_prompt", .jstr "a lamp made of bottles")] "visualization_prompt")
      ∧ specBlueprintInvariant (.jobj (removeKey
          [("design_title", .jstr "Bottle Lamp"),
           ("design_type", .jstr "Art Piece"),
           ("material_breakdown", .jarr [.jobj
             [("material_name", .jstr "Plastic Bottle"), ("estimated_quantity", .jstr "2 units")]]),
           ("assembly_steps_summary", .jstr "Cut and glue"),
           ("upcycle_score", .jint 7),
           ("visualization_prompt", .jstr "a lamp made of bottles")] "visualization_prompt")) = true) :=
  ⟨rfl, rfl, rfl,
   C7_conforming_response_valid ⟨some ⟨1⟩, some 100, .jnull, .jnull, none, none⟩ [] "key" ⟨1⟩ ⟨1⟩
     [("design_title", .jstr "Bottle Lamp"),
      ("design_type", .jstr "Art Piece"),
      ("material_breakdown", .jarr [.jobj
        [("material_name", .jstr "Plastic Bottle"), ("estimated_quantity", .jstr "2 units")]]),
      ("assembly_steps_summary", .jstr "Cut and glue"),
      ("upcycle_score", .jint 7),
      ("visualization_prompt", .jstr "a lamp made of bottles")] none rfl rfl rfl⟩

/-- C7 (counterexample): a remote response that is valid JSON but does
not conform to the schema — a single out-of-range upcycle_score and no
other field — is stored as the blueprint unchanged, violating the
section 3 validity contract: the code can store a partially-filled
blueprint. -/
theorem C7_stores_nonconforming :
    (analyze_image_callback ⟨some ⟨1⟩, some 100, .jnull, .jnull, none, none⟩ [] true "key"
        (some ⟨1⟩)
        (.response (.valid (.jobj [("upcycle_score", .jint 15)])) none)).session.blueprint_data
      = .jobj [("upcycle_score", .jint 15)]
    ∧ specBlueprintInvariant (.jobj [("upcycle_score", .jint 15)]) = false :=
  ⟨rfl, rfl⟩

/-- C8 (amended): in design_agent.py an empty remote response is
classified as an empty-response failure, with the safety-specific
branch taken exactly when the service signals the SAFETY finish
reason; in app_render.py the same empty response makes json.loads
raise inside the catch-all handler, so run_gemini_analysis returns the
generic failure (None, None) with no safety distinction. -/
theorem C8_empty_response_classified (img : PILImage) (fr : Option FinishReason) :
    (analyze_waste_and_design (some img) (.response .empty fr) = .emptySafety
      ↔ fr = some .safety)
    ∧ isEmptyOutcome (analyze_waste_and_design (some img) (.response .empty fr)) = true
    ∧ run_gemini_analysis true (some img) (.response .empty fr) = (.jnull, .jnull) := by
  rcases fr with _ | r
  · simp [analyze_waste_and_design, isEmptyOutcome, run_gemini_analysis, json_loads]
  · cases r <;>
      simp [analyze_waste_and_design, isEmptyOutcome, run_gemini_analysis, json_loads]

/-- C8 (counterexample): in app_render.py an empty response that the
service flags as a safety rejection produces exactly the same result
as a plain remote failure — the pair (None, None) — so the analysis
there does not fail with an EmptyResponse kind and carries no
safety-specific subreason. -/
theorem C8_app_render_no_distinction :
    run_gemini_analysis true (some ⟨0⟩) (.response .empty (some .safety)) = (.jnull, .jnull)
    ∧ run_gemini_analysis true (some ⟨0⟩) .raises = (.jnull, .jnull)
    ∧ run_gemini_analysis true (some ⟨0⟩) (.response .empty none) = (.jnull, .jnull) :=
  ⟨rfl, rfl, rfl⟩

/-- C9: a failed analysis attempt (here: the remote call raised, or
any body outcome equal to (None, None)) is stored in the memo table on
a cache miss, so every later analysis of the same item with the same
identifier and credential returns the cached failure without issuing a
remote call — regardless of the new remote behavior, so the failure
cannot be retried without a new upload or a credential change. -/
theorem C9_failure_cached (cache : AnalysisCache) (g : Bool) (img : Option PILImage)
    (call : GeminiCall) (k : String) (uid : Option Int)
    (g2 : Bool) (img2 : Option PILImage) (call2 : GeminiCall)
    (hmiss : cacheLookup cache (k, uid) = none)
    (hfail : run_gemini_analysis g img call = (.jnull, .jnull)) :
    (run_gemini_analysis_cached cache g img call k uid).result = (.jnull, .jnull)
    ∧ (run_gemini_analysis_cached (run_gemini_analysis_cached cache g img call k uid).cache
        g2 img2 call2 k uid).result = (.jnull, .jnull)
    ∧ (run_gemini_analysis_cached (run_gemini_analysis_cached cache g img call k uid).cache
        g2 img2 call2 k uid).remoteCalled = false := by
  simp [run_gemini_analysis_cached, hmiss, hfail, cacheLookup]

/-- C9 (witness): the statement at a concrete input — the first remote
call raises, and the later attempt would have returned a valid
blueprint yet still receives the cached (None, None). -/
theorem C9_failure_cached_witness :
    cacheLookup [] ("key", some 100) = none
    ∧ run_gemini_analysis true (some ⟨0⟩) .raises = (.jnull, .jnull)
    ∧ ((run_gemini_analysis_cached [] true (some ⟨0⟩) .raises "key" (some 100)).result
        = (.jnull, .jnull)
      ∧ (run_gemini_analysis_cached
          (run_gemini_analysis_cached [] true (some ⟨0⟩) .raises "key" (some 100)).cache
          true (some ⟨0⟩)
          (.response (.valid (.jobj [("design_title", .jstr "X")])) none)
          "key" (some 100)).result = (.jnull, .jnull)
      ∧ (run_gemini_analysis_cached
          (run_gemini_analysis_cached [] true (some ⟨0⟩) .raises "key" (some 100)).cache
          true (some ⟨0⟩)
          (.response (.valid (.jobj [("design_title", .jstr "X")])) none)
          "key" (some 100)).remoteCalled = false) :=
  ⟨rfl, rfl,
   C9_failure_cached [] true (some ⟨0⟩) .raises "key" (some 100)
     true (some ⟨0⟩) (.response (.valid (.jobj [("design_title", .jstr "X")])) none)
     rfl rfl⟩

/-- C10: when the render fails while a previously rendered image is in
the session, the callback changes last_generation_status to failed and
nothing else — the stored concept image object remains unchanged. -/
theorem C10_failed_render_frame (s : SessionState) (hfClientOk : Bool) (call : HFCall)
    (img0 : GenImage)
    (hprev : s.generated_image_obj = some img0)
    (hp : s.vis_prompt.truthy = true)
    (hfail : generate_image_with_hf hfClientOk call = none) :
    (generate_image_callback s hfClientOk call).session
      = { s with last_generation_status := some "failed" }
    ∧ (generate_image_callback s hfClientOk call).session.generated_image_obj = some img0 := by
  have h1 : (generate_image_callback s hfClientOk call).session
      = { s with last_generation_status := some "failed" } := by
    simp [generate_image_callback, hp, hfail]
  refine ⟨h1, ?_⟩
  rw [h1]
  exact hprev

/-- C10 (witness): the statement at a concrete session holding a
previously rendered image, whose next remote render call raises. -/
theorem C10_failed_render_frame_witness :
    ((⟨some ⟨1⟩, some 100, .jobj [("design_title", .jstr "A")], .jstr "a lamp", some ⟨9⟩,
        some "success"⟩ : SessionState).generated_image_obj = some ⟨9⟩)
    ∧ ((JVal.jstr "a lamp").truthy = true)
    ∧ generate_image_with_hf true .raises = none
    ∧ ((generate_image_callback
        ⟨some ⟨1⟩, some 100, .jobj [("design_title", .jstr "A")], .jstr "a lamp", some ⟨9⟩,
          some "success"⟩ true .raises).session
      = { (⟨some ⟨1⟩, some 100, .jobj [("design_title", .jstr "A")], .jstr "a lamp", some ⟨9⟩,
          some "success"⟩ : SessionState) with last_generation_status := some "failed" }
      ∧ (generate_image_callback
        ⟨some ⟨1⟩, some 100, .jobj [("design_title", .jstr "A")], .jstr "a lamp", some ⟨9⟩,
          some "success"⟩ true .raises).session.generated_image_obj = some ⟨9⟩) :=
  ⟨rfl, by decide, rfl,
   C10_failed_render_frame
     ⟨some ⟨1⟩, some 100, .jobj [("design_title", .jstr "A")], .jstr "a lamp", some ⟨9⟩,
       some "success"⟩ true .raises ⟨9⟩ rfl (by decide) rfl⟩
